import Mathlib

/-!
Verification of the convert adapter in packages/dwg/wasm/wrapper.c.

The file under verification is a thin C wrapper around the LibreDWG
library: one exported function convert(input_path, output_path) that
reads a DWG file, and writes it back out as ASCII DXF. The external
library operations (dwg_read_file, dwg_write_dxf, dwg_free) and the
host filesystem (fopen, fclose) are modelled as an oracle environment
giving the values those calls return during one activation of convert;
convert itself is embedded as a pure function from that environment and
the initial filesystem state to its int return value, the final
filesystem state, and the trace of external calls it performed, in
program order.
-/

namespace Wrapper

/-- Format version code (the Dwg_Version_Type enumeration of the library),
abstracted as a natural number. -/
abbrev Version := Nat

/-- Oracle for one activation of convert: the behaviour of the external
library and of the host filesystem during that call.
critical is the library constant DWG_ERR_CRITICAL; dwgSize is
sizeof(Dwg_Data); readCode is what dwg_read_file returns; headerVersion
and headerFromVersion are dwg.header.version and dwg.header.from_version
after the read; openOk says whether fopen(output_path, "wb") succeeds;
writeCode is what dwg_write_dxf returns and writeBytes the bytes it
writes into the open file. Using a single fixed oracle for a call also
encodes determinism of the library operations. -/
structure LibEnv where
  critical : Int
  dwgSize : Nat
  readCode : Int
  headerVersion : Version
  headerFromVersion : Version
  openOk : Bool
  writeCode : Int
  writeBytes : List Nat
  deriving Repr

/-- The fields of the Bit_Chain output sink that wrapper.c touches:
dat.version, dat.from_version and dat.fh (here: whether the handle is a
successfully opened one). -/
structure Sink where
  version : Version
  from_version : Version
  fhOpen : Bool
  deriving DecidableEq, Repr

/-- Observable external calls made by convert. readFile carries the bytes
of the stack Dwg_Data object at the moment dwg_read_file is invoked;
writeDxf carries the Bit_Chain sink at the moment dwg_write_dxf is
invoked. -/
inductive Event where
  | readFile (dwgBytes : List Nat) : Event
  | dwgFree : Event
  | fopenOut (ok : Bool) : Event
  | writeDxf (dat : Sink) : Event
  | fcloseOut : Event
  deriving DecidableEq, Repr

/-- The virtual filesystem as far as convert touches it: the contents of
the output path, none when that file does not exist. -/
structure FS where
  outFile : Option (List Nat)
  deriving DecidableEq, Repr

/-- Result of one activation of convert: the int return value, the final
filesystem state, and the trace of external calls in program order. -/
structure Result where
  ret : Int
  fs : FS
  trace : List Event
  deriving DecidableEq, Repr

/-- Shallow embedding of convert from wrapper.c.

Source, line by line:
  Dwg_Data dwg; memset(&dwg, 0, sizeof(Dwg_Data));
  int error = dwg_read_file(input_path, &dwg);
  if (error > DWG_ERR_CRITICAL) { dwg_free(&dwg); return error; }
  Bit_Chain dat = { 0 };
  dat.version = dwg.header.version;
  dat.from_version = dwg.header.from_version;
  dat.fh = fopen(output_path, "wb");
  if (!dat.fh) { dwg_free(&dwg); return 1; }
  error = dwg_write_dxf(&dat, &dwg);
  fclose(dat.fh); dwg_free(&dwg); return error;

The fopen with mode "wb", when it succeeds, creates or truncates the
output file; dwg_write_dxf then leaves writeBytes in it. -/
def convert (env : LibEnv) (fs : FS) : Result :=
  let dwg : List Nat := List.replicate env.dwgSize 0
  let error : Int := env.readCode
  if error > env.critical then
    { ret := error, fs := fs,
      trace := [Event.readFile dwg, Event.dwgFree] }
  else
    let dat : Sink :=
      { version := env.headerVersion,
        from_version := env.headerFromVersion,
        fhOpen := env.openOk }
    if env.openOk then
      { ret := env.writeCode,
        fs := { outFile := some env.writeBytes },
        trace := [Event.readFile dwg, Event.fopenOut true,
                  Event.writeDxf dat, Event.fcloseOut, Event.dwgFree] }
    else
      { ret := 1, fs := fs,
        trace := [Event.readFile dwg, Event.fopenOut false,
                  Event.dwgFree] }

/-- Recognize the dwg_free event. -/
def isFree : Event → Bool
  | Event.dwgFree => true
  | _ => false

/-- Recognize a successful fopen of the output path. -/
def isOpenOk : Event → Bool
  | Event.fopenOut true => true
  | _ => false

/-- Recognize any fopen attempt on the output path. -/
def isOpenAttempt : Event → Bool
  | Event.fopenOut _ => true
  | _ => false

/-- Recognize the fclose event. -/
def isClose : Event → Bool
  | Event.fcloseOut => true
  | _ => false

/-- Recognize the dwg_write_dxf event. -/
def isWrite : Event → Bool
  | Event.writeDxf _ => true
  | _ => false

/-- A sample oracle: non-critical read, fopen of the output fails. -/
def envOpenFail : LibEnv :=
  { critical := 2048, dwgSize := 4, readCode := 0,
    headerVersion := 25, headerFromVersion := 25,
    openOk := false, writeCode := 0, writeBytes := [] }

/-- A sample oracle: read returns the non-zero warning 5, fopen succeeds,
the write stage succeeds with code 0. -/
def envWarn : LibEnv :=
  { critical := 2048, dwgSize := 4, readCode := 5,
    headerVersion := 25, headerFromVersion := 20,
    openOk := true, writeCode := 0, writeBytes := [48, 10] }

/-- A sample oracle: the read stage fails with a code above the critical
threshold. -/
def envCrit : LibEnv :=
  { critical := 2048, dwgSize := 4, readCode := 4096,
    headerVersion := 0, headerFromVersion := 0,
    openOk := true, writeCode := 0, writeBytes := [] }

/-- A sample initial filesystem: the output path does not exist. -/
def fs0 : FS := { outFile := none }

/-- Shape of convert on the critical-read path: read code above the
threshold gives an early return with only the read and the free in the
trace and the filesystem untouched. -/
theorem convert_eq_of_crit (env : LibEnv) (fs : FS)
    (h : env.critical < env.readCode) :
    convert env fs =
      { ret := env.readCode, fs := fs,
        trace := [Event.readFile (List.replicate env.dwgSize 0),
                  Event.dwgFree] } := by
  unfold convert
  rw [if_pos h]

/-- Shape of convert on the open-failure path: non-critical read but the
fopen of the output path fails. -/
theorem convert_eq_of_openFail (env : LibEnv) (fs : FS)
    (h : env.readCode ≤ env.critical) (ho : env.openOk = false) :
    convert env fs =
      { ret := 1, fs := fs,
        trace := [Event.readFile (List.replicate env.dwgSize 0),
                  Event.fopenOut false, Event.dwgFree] } := by
  unfold convert
  rw [if_neg (not_lt.mpr h), ho]
  rfl

/-- Shape of convert on the write path: non-critical read and a
successful fopen of the output path. -/
theorem convert_eq_of_openOk (env : LibEnv) (fs : FS)
    (h : env.readCode ≤ env.critical) (ho : env.openOk = true) :
    convert env fs =
      { ret := env.writeCode, fs := { outFile := some env.writeBytes },
        trace := [Event.readFile (List.replicate env.dwgSize 0),
                  Event.fopenOut true,
                  Event.writeDxf
                    { version := env.headerVersion,
                      from_version := env.headerFromVersion, fhOpen := true },
                  Event.fcloseOut, Event.dwgFree] } := by
  unfold convert
  rw [if_neg (not_lt.mpr h), ho]
  rfl

/-- C1: the return value of convert is always 1 or a passthrough of the
code the library read or write operation produced; and when the library
codes are non-negative, the return value is 0 or positive. -/
theorem convert_ret_passthrough (env : LibEnv) (fs : FS)
    (hr : 0 ≤ env.readCode) (hw : 0 ≤ env.writeCode) :
    ((convert env fs).ret = 1 ∨ (convert env fs).ret = env.readCode ∨
      (convert env fs).ret = env.writeCode) ∧
    ((convert env fs).ret = 0 ∨ 0 < (convert env fs).ret) := by
  unfold convert
  rcases lt_or_le env.critical env.readCode with h | h
  · rw [if_pos h]
    exact ⟨Or.inr (Or.inl rfl), hr.lt_or_eq.elim (fun h0 => Or.inr h0)
      (fun h0 => Or.inl h0.symm)⟩
  · rw [if_neg (not_lt.mpr h)]
    rcases Bool.eq_false_or_eq_true env.openOk with ho | ho
    · rw [ho]
      exact ⟨Or.inr (Or.inr rfl), hw.lt_or_eq.elim (fun h0 => Or.inr h0)
        (fun h0 => Or.inl h0.symm)⟩
    · rw [ho]
      exact ⟨Or.inl rfl, Or.inr one_pos⟩

/-- Witness for C1 at a concrete oracle. -/
theorem convert_ret_passthrough_witness :
    ((convert envWarn fs0).ret = 1 ∨ (convert envWarn fs0).ret = envWarn.readCode ∨
      (convert envWarn fs0).ret = envWarn.writeCode) ∧
    ((convert envWarn fs0).ret = 0 ∨ 0 < (convert envWarn fs0).ret) :=
  convert_ret_passthrough envWarn fs0 (by decide) (by decide)

/-- C2: when dwg_read_file returns a code strictly above DWG_ERR_CRITICAL,
convert returns that code verbatim, frees the drawing exactly once, never
attempts to open the output path, and leaves the filesystem unchanged. -/
theorem convert_critical_read (env : LibEnv) (fs : FS)
    (h : env.critical < env.readCode) :
    (convert env fs).ret = env.readCode ∧
    ((convert env fs).trace.countP (fun e => isFree e) = 1) ∧
    ((convert env fs).trace.countP (fun e => isOpenAttempt e) = 0) ∧
    (convert env fs).fs = fs := by
  unfold convert
  rw [if_pos h]
  exact ⟨rfl, rfl, rfl, rfl⟩

/-- Witness for C2 at a concrete oracle. -/
theorem convert_critical_read_witness :
    (convert envCrit fs0).ret = envCrit.readCode ∧
    ((convert envCrit fs0).trace.countP (fun e => isFree e) = 1) ∧
    ((convert envCrit fs0).trace.countP (fun e => isOpenAttempt e) = 0) ∧
    (convert envCrit fs0).fs = fs0 :=
  convert_critical_read envCrit fs0 (by decide)

/-- C3: when the read is non-critical but fopen of the output path fails,
convert returns exactly 1, frees the drawing exactly once, and never
invokes dwg_write_dxf. -/
theorem convert_open_fail (env : LibEnv) (fs : FS)
    (h : env.readCode ≤ env.critical) (ho : env.openOk = false) :
    (convert env fs).ret = 1 ∧
    ((convert env fs).trace.countP (fun e => isFree e) = 1) ∧
    ((convert env fs).trace.countP (fun e => isWrite e) = 0) := by
  unfold convert
  rw [if_neg (not_lt.mpr h), ho]
  exact ⟨rfl, rfl, rfl⟩

/-- Witness for C3 at a concrete oracle. -/
theorem convert_open_fail_witness :
    (convert envOpenFail fs0).ret = 1 ∧
    ((convert envOpenFail fs0).trace.countP (fun e => isFree e) = 1) ∧
    ((convert envOpenFail fs0).trace.countP (fun e => isWrite e) = 0) :=
  convert_open_fail envOpenFail fs0 (by decide) (by decide)

/-- C4: on every path through convert, the drawing object is freed exactly
once, and the number of successful opens of the output path equals the
number of closes, so any successfully opened handle is closed before
return. -/
theorem convert_cleanup (env : LibEnv) (fs : FS) :
    ((convert env fs).trace.countP (fun e => isFree e) = 1) ∧
    ((convert env fs).trace.countP (fun e => isOpenOk e) =
      (convert env fs).trace.countP (fun e => isClose e)) := by
  unfold convert
  rcases lt_or_le env.critical env.readCode with h | h
  · rw [if_pos h]
    exact ⟨rfl, rfl⟩
  · rw [if_neg (not_lt.mpr h)]
    rcases Bool.eq_false_or_eq_true env.openOk with ho | ho
    · rw [ho]
      exact ⟨rfl, rfl⟩
    · rw [ho]
      exact ⟨rfl, rfl⟩

/-- C5 counterexample: with a non-critical read code but a failing fopen
of the output path, the write operation is not invoked, so a call with a
non-critical read does not always reach the write operation. -/
theorem convert_noncritical_write_cex :
    envOpenFail.readCode ≤ envOpenFail.critical ∧
    (convert envOpenFail fs0).trace.countP (fun e => isWrite e) = 0 := by
  decide

/-- C5 (amended): when the read code is at or below the critical
threshold (including a code equal to the threshold and any non-zero
warning), convert proceeds to attempt the open of the output path, and it
invokes the write operation exactly when that open succeeds. -/
theorem convert_noncritical_proceeds (env : LibEnv) (fs : FS)
    (h : env.readCode ≤ env.critical) :
    ((convert env fs).trace.countP (fun e => isOpenAttempt e) = 1) ∧
    ((convert env fs).trace.countP (fun e => isWrite e) =
      if env.openOk then 1 else 0) := by
  rcases Bool.eq_false_or_eq_true env.openOk with ho | ho
  · rw [convert_eq_of_openOk env fs h ho, ho]
    exact ⟨rfl, rfl⟩
  · rw [convert_eq_of_openFail env fs h ho, ho]
    exact ⟨rfl, rfl⟩

/-- Witness for the amended C5 at a concrete oracle. -/
theorem convert_noncritical_proceeds_witness :
    envWarn.readCode ≤ envWarn.critical ∧
    (((convert envWarn fs0).trace.countP (fun e => isOpenAttempt e) = 1) ∧
     ((convert envWarn fs0).trace.countP (fun e => isWrite e) =
       if envWarn.openOk then 1 else 0)) :=
  ⟨by decide, convert_noncritical_proceeds envWarn fs0 (by decide)⟩

/-- C6: on a call that reaches the write stage, convert returns the write
code, and its trace is exactly read, open, write, close, free in that
order, so the write happens before the close, the close before the free,
and the read code does not contribute to the return value. -/
theorem convert_write_path (env : LibEnv) (fs : FS)
    (h : env.readCode ≤ env.critical) (ho : env.openOk = true) :
    (convert env fs).ret = env.writeCode ∧
    (convert env fs).trace =
      [Event.readFile (List.replicate env.dwgSize 0), Event.fopenOut true,
       Event.writeDxf
         { version := env.headerVersion,
           from_version := env.headerFromVersion, fhOpen := true },
       Event.fcloseOut, Event.dwgFree] := by
  rw [convert_eq_of_openOk env fs h ho]
  exact ⟨rfl, rfl⟩

/-- Witness for C6 at a concrete oracle. -/
theorem convert_write_path_witness :
    (convert envWarn fs0).ret = envWarn.writeCode ∧
    (convert envWarn fs0).trace =
      [Event.readFile (List.replicate envWarn.dwgSize 0), Event.fopenOut true,
       Event.writeDxf
         { version := envWarn.headerVersion,
           from_version := envWarn.headerFromVersion, fhOpen := true },
       Event.fcloseOut, Event.dwgFree] :=
  convert_write_path envWarn fs0 (by decide) (by decide)

/-- C7: on every call that reaches the sink-preparation step, any sink
passed to the write operation carries the target-version and
source-version fields copied from the drawing header. -/
theorem convert_sink_versions (env : LibEnv) (fs : FS)
    (h : env.readCode ≤ env.critical) :
    ∀ s : Sink, Event.writeDxf s ∈ (convert env fs).trace →
      s.version = env.headerVersion ∧
      s.from_version = env.headerFromVersion := by
  rcases Bool.eq_false_or_eq_true env.openOk with ho | ho
  · rw [convert_eq_of_openOk env fs h ho]
    intro s hs
    simp only [List.mem_cons, List.not_mem_nil, or_false] at hs
    rcases hs with h1 | h1 | h1 | h1 | h1
    · exact absurd h1 (by simp)
    · exact absurd h1 (by simp)
    · rw [Event.writeDxf.injEq] at h1
      rw [h1]
      exact ⟨rfl, rfl⟩
    · exact absurd h1 (by simp)
    · exact absurd h1 (by simp)
  · rw [convert_eq_of_openFail env fs h ho]
    intro s hs
    simp only [List.mem_cons, List.not_mem_nil, or_false] at hs
    rcases hs with h1 | h1 | h1
    · exact absurd h1 (by simp)
    · exact absurd h1 (by simp)
    · exact absurd h1 (by simp)

/-- Witness for C7 at a concrete oracle. -/
theorem convert_sink_versions_witness :
    envWarn.readCode ≤ envWarn.critical ∧
    ((Event.writeDxf { version := 25, from_version := 20, fhOpen := true } ∈
        (convert envWarn fs0).trace) →
      ({ version := 25, from_version := 20, fhOpen := true } : Sink).version =
        envWarn.headerVersion ∧
      ({ version := 25, from_version := 20,
         fhOpen := true } : Sink).from_version = envWarn.headerFromVersion) :=
  ⟨by decide, fun hm =>
    convert_sink_versions envWarn fs0 (by decide)
      { version := 25, from_version := 20, fhOpen := true } hm⟩

/-- C8: on every call, the first external call is dwg_read_file, invoked
with the drawing object in a fully zeroed state (every byte of the
structure is zero), and any bytes the read event carries are all zero. -/
theorem convert_dwg_zeroed (env : LibEnv) (fs : FS) :
    (convert env fs).trace.head? =
      some (Event.readFile (List.replicate env.dwgSize 0)) ∧
    ∀ bs : List Nat, Event.readFile bs ∈ (convert env fs).trace →
      ∀ b ∈ bs, b = 0 := by
  rcases lt_or_le env.critical env.readCode with h | h
  · rw [convert_eq_of_crit env fs h]
    refine ⟨rfl, ?_⟩
    intro bs hbs b hb
    simp only [List.mem_cons, List.not_mem_nil, or_false] at hbs
    rcases hbs with h1 | h1
    · rw [Event.readFile.injEq] at h1
      rw [h1] at hb
      exact List.eq_of_mem_replicate hb
    · exact absurd h1 (by simp)
  · rcases Bool.eq_false_or_eq_true env.openOk with ho | ho
    · rw [convert_eq_of_openOk env fs h ho]
      refine ⟨rfl, ?_⟩
      intro bs hbs b hb
      simp only [List.mem_cons, List.not_mem_nil, or_false] at hbs
      rcases hbs with h1 | h1 | h1 | h1 | h1
      · rw [Event.readFile.injEq] at h1
        rw [h1] at hb
        exact List.eq_of_mem_replicate hb
      · exact absurd h1 (by simp)
      · exact absurd h1 (by simp)
      · exact absurd h1 (by simp)
      · exact absurd h1 (by simp)
    · rw [convert_eq_of_openFail env fs h ho]
      refine ⟨rfl, ?_⟩
      intro bs hbs b hb
      simp only [List.mem_cons, List.not_mem_nil, or_false] at hbs
      rcases hbs with h1 | h1 | h1
      · rw [Event.readFile.injEq] at h1
        rw [h1] at hb
        exact List.eq_of_mem_replicate hb
      · exact absurd h1 (by simp)
      · exact absurd h1 (by simp)

/-- Witness for C8 at a concrete oracle and concrete read bytes. -/
theorem convert_dwg_zeroed_witness :
    (convert envWarn fs0).trace.head? =
      some (Event.readFile (List.replicate envWarn.dwgSize 0)) ∧
    (Event.readFile (List.replicate 4 0) ∈ (convert envWarn fs0).trace →
      (0 : Nat) ∈ List.replicate 4 0 → (0 : Nat) = 0) :=
  ⟨(convert_dwg_zeroed envWarn fs0).1,
   fun hm hb =>
     (convert_dwg_zeroed envWarn fs0).2 (List.replicate 4 0) hm 0 hb⟩

/-- C9: with a fixed oracle, which encodes determinism of the library
read and write operations, a second call of convert on the filesystem the
first call left behind returns the same value and leaves a byte-identical
output file: the open-for-write truncates and the result is overwritten
identically. -/
theorem convert_idempotent (env : LibEnv) (fs : FS) :
    (convert env (convert env fs).fs).ret = (convert env fs).ret ∧
    (convert env (convert env fs).fs).fs = (convert env fs).fs := by
  rcases lt_or_le env.critical env.readCode with h | h
  · simp only [convert_eq_of_crit env _ h]
    exact ⟨trivial, trivial⟩
  · rcases Bool.eq_false_or_eq_true env.openOk with ho | ho
    · simp only [convert_eq_of_openOk env _ h ho]
      exact ⟨trivial, trivial⟩
    · simp only [convert_eq_of_openFail env _ h ho]
      exact ⟨trivial, trivial⟩

/-- C10: a non-critical read code is never visible in the return value of
convert: whenever the read code is at or below the critical threshold,
the return value is either 1 or the write code. -/
theorem convert_warn_invisible (env : LibEnv) (fs : FS)
    (h : env.readCode ≤ env.critical) :
    (convert env fs).ret = 1 ∨ (convert env fs).ret = env.writeCode := by
  rcases Bool.eq_false_or_eq_true env.openOk with ho | ho
  · rw [convert_eq_of_openOk env fs h ho]
    exact Or.inr rfl
  · rw [convert_eq_of_openFail env fs h ho]
    exact Or.inl rfl

/-- Witness for C10 at a concrete oracle: the read stage produced the
non-zero warning 5, yet convert returns 0, reported as success. -/
theorem convert_warn_invisible_witness :
    envWarn.readCode ≤ envWarn.critical ∧ envWarn.readCode ≠ 0 ∧
    (convert envWarn fs0).ret = 0 ∧
    ((convert envWarn fs0).ret = 1 ∨
      (convert envWarn fs0).ret = envWarn.writeCode) :=
  ⟨by decide, by decide, by decide,
   convert_warn_invisible envWarn fs0 (by decide)⟩

end Wrapper
